import Mathlib

/-!
Verification of the mini-tcp repository: a shallow embedding of the
sequence-space arithmetic (src/tcp/mod.rs), the handshake state machine
(src/tcp/handshake.rs, src/tcp/state.rs) and the dispatch loop body
(src/main.rs), together with theorems settling the specification claims.

Machine integers (u16, u32) are modelled as Nat; wrapping_add / wrapping_sub
become explicit arithmetic modulo 2^32.
-/

namespace MiniTcp

/-- Modulus of 32-bit sequence arithmetic. -/
def U32_MOD : Nat := 2 ^ 32

/-- src/tcp/mod.rs: DEFAULT_WINDOW_SIZE. -/
def DEFAULT_WINDOW_SIZE : Nat := 64240

/-- src/tcp/mod.rs: ConnectionID. IPv4 addresses are modelled as Nat. -/
structure ConnectionID where
  src_addr : Nat
  src_port : Nat
  dst_addr : Nat
  dst_port : Nat
deriving DecidableEq, Repr

/-- View of the fields of an etherparse Ipv4HeaderSlice that the code reads. -/
structure Ipv4HeaderView where
  source_addr : Nat
  destination_addr : Nat
deriving DecidableEq, Repr

/-- View of the fields of an etherparse TcpHeaderSlice that the code reads. -/
structure TcpHeaderView where
  source_port : Nat
  destination_port : Nat
  sequence_number : Nat
  acknowledgment_number : Nat
  window_size : Nat
  syn : Bool
  ack : Bool
  fin : Bool
deriving DecidableEq, Repr

/-- src/tcp/mod.rs: SendSequenceSpace. -/
structure SendSequenceSpace where
  up : Bool
  wnd : Nat
  una : Nat
  nxt : Nat
  wl1 : Nat
  wl2 : Nat
  iss : Nat
deriving DecidableEq, Repr

/-- src/tcp/mod.rs: ReceiveSequenceSpace. -/
structure ReceiveSequenceSpace where
  up : Bool
  wnd : Nat
  nxt : Nat
  irs : Nat
deriving DecidableEq, Repr

/-- src/tcp/mod.rs: Connection<T>, an id plus a typed state payload. -/
structure Connection (T : Type) where
  id : ConnectionID
  state : T
deriving DecidableEq, Repr

/-- src/tcp/state.rs: Listen, holding the inbound header views. -/
structure Listen where
  ip_header : Ipv4HeaderView
  tcp_header : TcpHeaderView
deriving DecidableEq, Repr

/-- src/tcp/state.rs: SynRecv. -/
structure SynRecv where
  snd : SendSequenceSpace
  rcv : ReceiveSequenceSpace
deriving DecidableEq, Repr

/-- src/tcp/state.rs: Established. -/
structure Established where
  snd : SendSequenceSpace
  rcv : ReceiveSequenceSpace
deriving DecidableEq, Repr

/-- src/tcp/mod.rs lines 168-185: is_wrapping_lte_ls, the check a <= b < c
with wrapping, written as the source's three early-return cases. -/
def is_wrapping_lte_ls (a b c : Nat) : Bool :=
  if a ≤ b ∧ b < c then true
  else if c < a ∧ a ≤ b then true
  else if b < c ∧ c < a then true
  else false

/-- src/tcp/mod.rs lines 188-207: is_ack_in_window, written as the source's
three early-return cases (note case 3 tests `ack <= snd.una`, as the source
does on line 202). -/
def is_ack_in_window (snd : SendSequenceSpace) (ack : Nat) : Bool :=
  if snd.una < ack ∧ ack ≤ snd.nxt then true
  else if snd.nxt < snd.una ∧ snd.una < ack then true
  else if ack ≤ snd.una ∧ snd.nxt < snd.una then true
  else false

/-- src/tcp/mod.rs lines 122-165: is_recv_data_in_window. The payload is an
optional byte slice; only its presence and length matter. -/
def is_recv_data_in_window (rcv : ReceiveSequenceSpace) (seg : TcpHeaderView)
    (data : Option (List Nat)) : Bool :=
  -- Case 1:
  if data.isNone ∧ rcv.wnd = 0 ∧ seg.sequence_number = rcv.nxt then true
  -- Case 3:
  else if data.isSome ∧ rcv.wnd = 0 then false
  else
    let wnd_edge := (rcv.nxt + rcv.wnd) % U32_MOD
    -- Checking Case 2 and part of Case 4
    if is_wrapping_lte_ls rcv.nxt seg.sequence_number wnd_edge then true
    -- Case 4:
    else if data.isSome ∧ rcv.wnd > 0 then
      let seg_len0 := (data.map List.length).getD 0
      let seg_len1 := if seg.syn then seg_len0 + 1 else seg_len0
      let seg_len2 := if seg.fin then seg_len1 + 1 else seg_len1
      let seg_last_seq := ((seg.sequence_number + seg_len2) % U32_MOD + U32_MOD - 1) % U32_MOD
      is_wrapping_lte_ls rcv.nxt seg_last_seq wnd_edge
    else false

/-- src/tcp/handshake.rs lines 50-71: next_state, building the SynRecv
sequence spaces from the chosen iss, the advertised window and the inbound
header held by the Listen state. -/
def next_state (l : Listen) (iss wnd : Nat) : SynRecv :=
  { snd := { una := iss, nxt := (iss + 1) % U32_MOD, wnd := wnd,
             up := false, wl1 := 0, wl2 := 0, iss := iss }
    rcv := { nxt := (l.tcp_header.sequence_number + 1) % U32_MOD,
             wnd := l.tcp_header.window_size, up := false,
             irs := l.tcp_header.sequence_number } }

/-- src/tcp/handshake.rs lines 75-99: preflight_checks. -/
def preflight_checks (l : Listen) : Except String Unit :=
  if l.tcp_header.ack then Except.error "ack should not be set, invalid payload"
  else if !l.tcp_header.syn then Except.error "syn should be set, invalid payload"
  else Except.ok ()

/-- The fields of the reply TCP segment built by syn_ack (the checksum, an
external-codec computation, is not modelled). -/
structure TcpReply where
  source_port : Nat
  destination_port : Nat
  sequence_number : Nat
  acknowledgment_number : Nat
  window : Nat
  syn : Bool
  ack : Bool
deriving DecidableEq, Repr

/-- src/tcp/handshake.rs lines 101-141: syn_ack. The interface writes are
returned as the list of emitted reply segments; the source calls nic.send
exactly once, on the single constructed reply. -/
def syn_ack (c : Connection Listen) : Except String (Connection SynRecv × List TcpReply) :=
  match preflight_checks c.state with
  | Except.error e => Except.error e
  | Except.ok _ =>
    let initial_seq_num := 0
    let window_size := DEFAULT_WINDOW_SIZE
    let ns := next_state c.state initial_seq_num window_size
    let reply : TcpReply :=
      { source_port := c.id.dst_port, destination_port := c.id.src_port,
        sequence_number := initial_seq_num,
        acknowledgment_number := ns.rcv.nxt,
        window := window_size, syn := true, ack := true }
    Except.ok (⟨c.id, ns⟩, [reply])

/-- src/tcp/handshake.rs lines 147-168: check_ack. The transmute from
SynRecv to Established (identical repr(C) layouts, exercised by the
test_transmute unit test) is modelled as the field-for-field copy it
performs. The source never writes to the interface here, so the emitted
reply list is empty. -/
def check_ack (c : Connection SynRecv) (tcp_header : TcpHeaderView) :
    Except String (Connection Established × List TcpReply) :=
  if !tcp_header.ack then Except.error "no ack received"
  else if !is_ack_in_window c.state.snd tcp_header.acknowledgment_number then
    Except.error "not valid ack for syn recv"
  else if !is_recv_data_in_window c.state.rcv tcp_header none then
    Except.error "not valid ack for syn recv"
  else Except.ok (⟨c.id, { snd := c.state.snd, rcv := c.state.rcv }⟩, [])

/-- src/main.rs lines 69-72: ConnectionWrapper. -/
inductive ConnectionWrapper where
  | synRecv (c : Connection SynRecv)
  | established (c : Connection Established)
deriving DecidableEq, Repr

/-- The connection table, a map from ConnectionID to ConnectionWrapper,
modelled as an association list without duplicate keys. -/
def Table := List (ConnectionID × ConnectionWrapper)

instance : DecidableEq Table := by
  unfold Table
  infer_instance

/-- HashMap lookup. -/
def tableLookup (tbl : Table) (id : ConnectionID) : Option ConnectionWrapper :=
  match tbl with
  | [] => none
  | (k, v) :: rest => if k = id then some v else tableLookup rest id

/-- HashMap entry removal (Entry::Occupied::remove). -/
def tableErase (tbl : Table) (id : ConnectionID) : Table :=
  match tbl with
  | [] => []
  | (k, v) :: rest => if k = id then tableErase rest id else (k, v) :: tableErase rest id

/-- HashMap insert. -/
def tableInsert (tbl : Table) (id : ConnectionID) (v : ConnectionWrapper) : Table :=
  (id, v) :: tableErase tbl id

/-- src/main.rs lines 24-65: the body of one dispatch-loop iteration, after
the blocking read. Its input is the result of parse_connection_id on the
received bytes (the external codec). The returned value is
Except.error on the paths where main's `?` operator propagates an error out
of the loop (terminating the process), and Except.ok (new table, emitted
replies) on the paths where the loop continues. -/
def dispatchStep (tbl : Table)
    (parsed : Except String (ConnectionID × Ipv4HeaderView × TcpHeaderView)) :
    Except String (Table × List TcpReply) :=
  match parsed with
  | Except.error _ => Except.ok (tbl, [])   -- parse failure: skip packet, continue
  | Except.ok (id, ip_header, tcp_header) =>
    match tableLookup tbl id with
    | none =>
      -- Entry::Vacant: syn_ack is called with `?`, so its error propagates
      match syn_ack ⟨id, { ip_header := ip_header, tcp_header := tcp_header }⟩ with
      | Except.error e => Except.error e
      | Except.ok (next, sent) => Except.ok (tableInsert tbl id (ConnectionWrapper.synRecv next), sent)
    | some w =>
      -- Entry::Occupied: e.remove() takes the entry out of the table first
      let tbl' := tableErase tbl id
      match w with
      | ConnectionWrapper.synRecv conn =>
        match check_ack conn tcp_header with
        | Except.ok (conn', sent) =>
          Except.ok (tableInsert tbl' id (ConnectionWrapper.established conn'), sent)
        | Except.error _ => Except.ok (tbl', [])   -- log the error, continue
      | ConnectionWrapper.established _ => Except.ok (tbl', [])   -- log invalid state, continue

/-! Specification-side definitions, written from the spec's words, to be
compared against the source functions above. -/

/-- Wrapping subtraction modulo 2^32, for operands below 2^32. -/
def wsub (a b : Nat) : Nat := (a + U32_MOD - b) % U32_MOD

/-- Spec-side definition (spec section 4.1): ack lies in the half-open
modular interval (una, nxt], i.e. una < ack <= nxt under wraparound-safe
32-bit modular ordering, measured by distance from una. -/
def ack_in_window_spec (snd : SendSequenceSpace) (ack : Nat) : Prop :=
  0 < wsub ack snd.una ∧ wsub ack snd.una ≤ wsub snd.nxt snd.una

instance (snd : SendSequenceSpace) (ack : Nat) : Decidable (ack_in_window_spec snd ack) := by
  unfold ack_in_window_spec
  infer_instance

/-- Spec-side definition (spec section 4.1): segment length counts payload
octets plus one for each of the SYN and FIN control bits. -/
def seg_len_spec (seg : TcpHeaderView) (data : Option (List Nat)) : Nat :=
  (data.map List.length).getD 0 + (if seg.syn then 1 else 0) + (if seg.fin then 1 else 0)

/-- Spec-side definition: x lies in [rcv.nxt, rcv.nxt + rcv.wnd) modularly. -/
def in_rcv_window_spec (rcv : ReceiveSequenceSpace) (x : Nat) : Prop :=
  wsub x rcv.nxt < rcv.wnd

/-- Spec-side definition (spec section 4.1): the four-row acceptability
table, with segment length given by seg_len_spec. -/
def recv_window_table_spec (rcv : ReceiveSequenceSpace) (seg : TcpHeaderView)
    (data : Option (List Nat)) : Prop :=
  let len := seg_len_spec seg data
  (len = 0 ∧ rcv.wnd = 0 ∧ seg.sequence_number = rcv.nxt) ∨
  (len = 0 ∧ 0 < rcv.wnd ∧ in_rcv_window_spec rcv seg.sequence_number) ∨
  (0 < len ∧ 0 < rcv.wnd ∧
    (in_rcv_window_spec rcv seg.sequence_number ∨
     in_rcv_window_spec rcv ((seg.sequence_number + len + U32_MOD - 1) % U32_MOD)))

instance (rcv : ReceiveSequenceSpace) (seg : TcpHeaderView) (data : Option (List Nat)) :
    Decidable (recv_window_table_spec rcv seg data) := by
  unfold recv_window_table_spec in_rcv_window_spec
  infer_instance

/-- src/tcp/mod.rs line 170: the condition of the first case of
is_wrapping_lte_ls. -/
def wrap_case1 (a b c : Nat) : Prop := a ≤ b ∧ b < c

/-- src/tcp/mod.rs line 175: the condition of the second case of
is_wrapping_lte_ls. -/
def wrap_case2 (a b c : Nat) : Prop := c < a ∧ a ≤ b

/-- src/tcp/mod.rs line 180: the condition of the third case of
is_wrapping_lte_ls. -/
def wrap_case3 (a b c : Nat) : Prop := b < c ∧ c < a

instance (a b c : Nat) : Decidable (wrap_case1 a b c) := by
  unfold wrap_case1; infer_instance

instance (a b c : Nat) : Decidable (wrap_case2 a b c) := by
  unfold wrap_case2; infer_instance

instance (a b c : Nat) : Decidable (wrap_case3 a b c) := by
  unfold wrap_case3; infer_instance

end MiniTcp

namespace MiniTcp

/-! Theorems settling the claims. -/

/-- Claim C1: `is_ack_in_window(snd, ack)` is claimed to return true iff ack
lies in the half-open modular interval (una, nxt], with ack = una rejected.
The code's third case tests `ack <= snd.una` instead of `ack <= snd.nxt`
(contradicting its own comment), so for snd = \x7buna := 200, nxt := 100\x7d
(a wrapped window) ack = 150 is accepted although it is outside (una, nxt],
and ack = una = 200 is accepted although the claim rejects ack = una. -/
theorem is_ack_in_window_case3_code_bug :
    is_ack_in_window ⟨false, 0, 200, 100, 0, 0, 0⟩ 150 = true ∧
    ¬ ack_in_window_spec ⟨false, 0, 200, 100, 0, 0, 0⟩ 150 ∧
    is_ack_in_window ⟨false, 0, 200, 100, 0, 0, 0⟩ 200 = true ∧
    ¬ ack_in_window_spec ⟨false, 0, 200, 100, 0, 0, 0⟩ 200 := by
  decide

/-- Claim C2: `is_recv_data_in_window` is claimed to reproduce the four-row
acceptability table with segment length = payload octets + SYN + FIN, so a
SYN-bearing segment with no payload would be rejected when rcv.wnd = 0. The
code instead tests "length 0" by payload absence: with rcv = \x7bnxt := 1000,
wnd := 0\x7d, a payload-free SYN segment with seq = 1000 has table length 1
(row "len > 0, wnd = 0: never acceptable") yet the code accepts it. -/
theorem is_recv_data_in_window_syn_zero_window_code_bug :
    is_recv_data_in_window ⟨false, 0, 1000, 0⟩
      ⟨1111, 80, 1000, 0, 0, true, false, false⟩ none = true ∧
    ¬ recv_window_table_spec ⟨false, 0, 1000, 0⟩
      ⟨1111, 80, 1000, 0, 0, true, false, false⟩ none := by
  decide

end MiniTcp

namespace MiniTcp

/-- Claim C3: after a failed SynReceived -> Established attempt the table is
claimed to still map the identity to the pre-attempt SynReceived entry. The
loop body removes the entry before the attempt and does not restore it on
failure: with one SynReceived entry and an arriving segment whose ACK flag
is clear, check_ack fails and the iteration leaves an empty table. -/
theorem dispatch_failed_check_ack_loses_entry :
    dispatchStep
      [(⟨1, 1111, 2, 80⟩, ConnectionWrapper.synRecv
        ⟨⟨1, 1111, 2, 80⟩, ⟨⟨false, 64240, 0, 1, 0, 0, 0⟩, ⟨false, 500, 101, 100⟩⟩⟩)]
      (Except.ok (⟨1, 1111, 2, 80⟩, ⟨1, 2⟩, ⟨1111, 80, 101, 1, 500, false, false, false⟩)) =
      Except.ok ([], []) ∧
    tableLookup [] ⟨1, 1111, 2, 80⟩ = none := by
  exact ⟨rfl, rfl⟩

/-- Claim C4: a segment arriving for an identity already in Established is
claimed to leave the Established table entry in the table unchanged. The
loop body calls remove() on the occupied entry before matching its variant,
so a duplicate SYN for an Established identity leaves an empty table: the
entry is removed, not kept. -/
theorem dispatch_established_segment_removes_entry :
    dispatchStep
      [(⟨1, 1111, 2, 80⟩, ConnectionWrapper.established
        ⟨⟨1, 1111, 2, 80⟩, ⟨⟨false, 64240, 0, 1, 0, 0, 0⟩, ⟨false, 500, 101, 100⟩⟩⟩)]
      (Except.ok (⟨1, 1111, 2, 80⟩, ⟨1, 2⟩, ⟨1111, 80, 100, 0, 500, true, false, false⟩)) =
      Except.ok ([], []) ∧
    tableLookup [] ⟨1, 1111, 2, 80⟩ = none := by
  exact ⟨rfl, rfl⟩

/-- Claim C5: the dispatch loop is claimed never to return a fatal error on
a per-packet validation error, including a failed syn_ack preflight check
for an unknown identity. The loop body applies the propagation operator to
syn_ack, so an ACK-bearing segment for an identity not in the table makes
the iteration return the validation error fatally instead of skipping. -/
theorem dispatch_unknown_identity_validation_error_is_fatal :
    dispatchStep []
      (Except.ok (⟨1, 1111, 2, 80⟩, ⟨1, 2⟩, ⟨1111, 80, 100, 55, 500, false, true, false⟩)) =
      Except.error "ack should not be set, invalid payload" := by
  rfl

end MiniTcp

namespace MiniTcp

/-- Claim C6: for a Listen connection whose inbound segment has SYN set and
ACK clear, syn_ack succeeds with snd = \x7buna = iss, nxt = iss + 1 mod 2^32,
wnd = 64240, iss\x7d (the source fixes iss = 0), rcv = \x7bnxt = peer_seq + 1
mod 2^32, wnd = peer window, irs = peer_seq\x7d, and emits exactly one reply
with ports swapped, seq = iss, ack number = rcv.nxt, SYN and ACK set and
window 64240; if ACK is set or SYN is clear it fails and emits nothing. -/
theorem syn_ack_success_and_failure (c : Connection Listen) :
    (c.state.tcp_header.syn = true → c.state.tcp_header.ack = false →
      syn_ack c = Except.ok
        (⟨c.id,
          { snd := { up := false, wnd := DEFAULT_WINDOW_SIZE, una := 0,
                     nxt := (0 + 1) % U32_MOD, wl1 := 0, wl2 := 0, iss := 0 },
            rcv := { up := false, wnd := c.state.tcp_header.window_size,
                     nxt := (c.state.tcp_header.sequence_number + 1) % U32_MOD,
                     irs := c.state.tcp_header.sequence_number } }⟩,
         [{ source_port := c.id.dst_port, destination_port := c.id.src_port,
            sequence_number := 0,
            acknowledgment_number := (c.state.tcp_header.sequence_number + 1) % U32_MOD,
            window := DEFAULT_WINDOW_SIZE, syn := true, ack := true }])) ∧
    (c.state.tcp_header.ack = true ∨ c.state.tcp_header.syn = false →
      ∃ e, syn_ack c = Except.error e) := by
  constructor
  · intro hsyn hack
    simp [syn_ack, preflight_checks, next_state, hack, hsyn]
  · intro h
    rcases h with h | h
    · exact ⟨"ack should not be set, invalid payload",
        by simp [syn_ack, preflight_checks, h]⟩
    · by_cases hA : c.state.tcp_header.ack = true
      · exact ⟨"ack should not be set, invalid payload",
          by simp [syn_ack, preflight_checks, hA]⟩
      · exact ⟨"syn should be set, invalid payload",
          by simp [syn_ack, preflight_checks, hA, h]⟩

/-- Witness for C6: a concrete SYN (seq 100, window 500) succeeds with the
stated SynReceived record and single reply, and a concrete ACK-bearing
segment fails. -/
theorem syn_ack_success_and_failure_witness :
    syn_ack ⟨⟨1, 1111, 2, 80⟩, ⟨⟨1, 2⟩, ⟨1111, 80, 100, 0, 500, true, false, false⟩⟩⟩ =
      Except.ok
        (⟨⟨1, 1111, 2, 80⟩,
          { snd := { up := false, wnd := DEFAULT_WINDOW_SIZE, una := 0,
                     nxt := (0 + 1) % U32_MOD, wl1 := 0, wl2 := 0, iss := 0 },
            rcv := { up := false, wnd := 500, nxt := (100 + 1) % U32_MOD, irs := 100 } }⟩,
         [{ source_port := 80, destination_port := 1111, sequence_number := 0,
            acknowledgment_number := (100 + 1) % U32_MOD,
            window := DEFAULT_WINDOW_SIZE, syn := true, ack := true }]) ∧
    (∃ e, syn_ack ⟨⟨1, 1111, 2, 80⟩, ⟨⟨1, 2⟩, ⟨1111, 80, 100, 7, 500, true, true, false⟩⟩⟩ =
      Except.error e) :=
  ⟨(syn_ack_success_and_failure _).1 rfl rfl,
   (syn_ack_success_and_failure _).2 (Or.inl rfl)⟩

/-- Claim C7: for a SynReceived connection and an arriving segment with ACK
set that passes is_ack_in_window and passes is_recv_data_in_window with no
payload, check_ack succeeds, the Established state's send and receive
sequence spaces are field-for-field those of the SynReceived state, and no
reply segment is written to the interface. -/
theorem check_ack_success_frame (c : Connection SynRecv) (hdr : TcpHeaderView)
    (hack : hdr.ack = true)
    (hwin : is_ack_in_window c.state.snd hdr.acknowledgment_number = true)
    (hrcv : is_recv_data_in_window c.state.rcv hdr none = true) :
    check_ack c hdr = Except.ok (⟨c.id, { snd := c.state.snd, rcv := c.state.rcv }⟩, []) := by
  simp [check_ack, hack, hwin, hrcv]

/-- Witness for C7: the handshake ACK (ack = iss + 1 = 1, seq = rcv.nxt,
no payload) establishes the connection with identical sequence spaces and
no reply. -/
theorem check_ack_success_frame_witness :
    check_ack ⟨⟨1, 1111, 2, 80⟩, ⟨⟨false, 64240, 0, 1, 0, 0, 0⟩, ⟨false, 500, 101, 100⟩⟩⟩
        ⟨1111, 80, 101, 1, 500, false, true, false⟩ =
      Except.ok
        (⟨⟨1, 1111, 2, 80⟩, ⟨⟨false, 64240, 0, 1, 0, 0, 0⟩, ⟨false, 500, 101, 100⟩⟩⟩, []) :=
  check_ack_success_frame _ _ rfl (by decide) (by decide)

end MiniTcp

namespace MiniTcp

/-- Claim C8: for every 32-bit a and every k in [1, 2^31],
is_wrapping_lte_ls a (a + 1 mod 2^32) (a + k + 1 mod 2^32) returns true;
and for 32-bit a and c, is_wrapping_lte_ls a a c returns true iff a is not
equal to c. -/
theorem is_wrapping_lte_ls_forward_and_reflexive :
    (∀ a k : Nat, a < U32_MOD → 1 ≤ k → k ≤ 2 ^ 31 →
      is_wrapping_lte_ls a ((a + 1) % U32_MOD) ((a + k + 1) % U32_MOD) = true) ∧
    (∀ a c : Nat, a < U32_MOD → c < U32_MOD →
      (is_wrapping_lte_ls a a c = true ↔ a ≠ c)) := by
  constructor
  · intro a k ha hk1 hk2
    unfold is_wrapping_lte_ls U32_MOD at *
    split_ifs with h1 h2 h3 <;> first | rfl | (exfalso; omega)
  · intro a c ha hc
    unfold is_wrapping_lte_ls
    split_ifs with h1 h2 h3 <;> simp <;> omega

/-- Witness for C8: concrete instances a = 5, k = 2 and (a, c) = (5, 7). -/
theorem is_wrapping_lte_ls_forward_and_reflexive_witness :
    is_wrapping_lte_ls 5 ((5 + 1) % U32_MOD) ((5 + 2 + 1) % U32_MOD) = true ∧
    (is_wrapping_lte_ls 5 5 7 = true ↔ (5 : Nat) ≠ 7) :=
  ⟨is_wrapping_lte_ls_forward_and_reflexive.1 5 2 (by decide) (by decide) (by decide),
   is_wrapping_lte_ls_forward_and_reflexive.2 5 7 (by decide) (by decide)⟩

/-- Claim C9 counterexample: the claim says that for every pairwise-distinct
triple exactly one of the three cases of is_wrapping_lte_ls holds. At the
pairwise-distinct triple (1, 3, 2) none of the three cases holds (and the
function returns false), so the claim as stated is refuted. -/
theorem wrap_cases_none_hold_at_1_3_2 :
    (1 : Nat) ≠ 3 ∧ (3 : Nat) ≠ 2 ∧ (1 : Nat) ≠ 2 ∧
    ¬ wrap_case1 1 3 2 ∧ ¬ wrap_case2 1 3 2 ∧ ¬ wrap_case3 1 3 2 ∧
    is_wrapping_lte_ls 1 3 2 = false := by
  decide

/-- Claim C9, amended: for every pairwise-distinct triple at most one of the
three cases of is_wrapping_lte_ls holds, and at least one (hence exactly
one) holds precisely when is_wrapping_lte_ls returns true. -/
theorem wrap_cases_at_most_one (a b c : Nat)
    (hab : a ≠ b) (hbc : b ≠ c) (hac : a ≠ c) :
    (¬ (wrap_case1 a b c ∧ wrap_case2 a b c) ∧
     ¬ (wrap_case1 a b c ∧ wrap_case3 a b c) ∧
     ¬ (wrap_case2 a b c ∧ wrap_case3 a b c)) ∧
    ((wrap_case1 a b c ∨ wrap_case2 a b c ∨ wrap_case3 a b c) ↔
      is_wrapping_lte_ls a b c = true) := by
  unfold wrap_case1 wrap_case2 wrap_case3 is_wrapping_lte_ls
  constructor
  · exact ⟨by omega, by omega, by omega⟩
  · split_ifs with h1 h2 h3 <;> simp <;> omega

/-- Witness for C9's amended theorem at the triple (1, 3, 2). -/
theorem wrap_cases_at_most_one_witness :
    (¬ (wrap_case1 1 3 2 ∧ wrap_case2 1 3 2) ∧
     ¬ (wrap_case1 1 3 2 ∧ wrap_case3 1 3 2) ∧
     ¬ (wrap_case2 1 3 2 ∧ wrap_case3 1 3 2)) ∧
    ((wrap_case1 1 3 2 ∨ wrap_case2 1 3 2 ∨ wrap_case3 1 3 2) ↔
      is_wrapping_lte_ls 1 3 2 = true) :=
  wrap_cases_at_most_one 1 3 2 (by decide) (by decide) (by decide)

/-- Claim C10: when snd.una = snd.nxt the acknowledgment window (una, nxt]
is empty, and is_ack_in_window rejects every 32-bit ack, including
ack = snd.nxt itself. -/
theorem is_ack_in_window_empty_window_rejects_all
    (snd : SendSequenceSpace) (ack : Nat) (h : snd.una = snd.nxt) :
    is_ack_in_window snd ack = false := by
  unfold is_ack_in_window
  split_ifs with h1 h2 h3 <;> first | rfl | (exfalso; omega)

/-- Witness for C10: with una = nxt = 7 every ack is rejected, in
particular ack = 7 and ack = 3. -/
theorem is_ack_in_window_empty_window_rejects_all_witness :
    is_ack_in_window ⟨false, 0, 7, 7, 0, 0, 0⟩ 7 = false ∧
    is_ack_in_window ⟨false, 0, 7, 7, 0, 0, 0⟩ 3 = false :=
  ⟨is_ack_in_window_empty_window_rejects_all _ 7 rfl,
   is_ack_in_window_empty_window_rejects_all _ 3 rfl⟩

end MiniTcp
